import Mathlib

/-!
# Verification of the wetblob lake-storage layer

A shallow embedding of the `lake-db` storage layer (blob store, item catalog,
lineage graph, run ledger, task queue) and of the `http_snapshot` collector,
translated from the TypeScript sources in `packages/lake-db` and
`packages/lake-cli`, together with theorems settling the specification claims.

The database is modelled as an explicit state (`DbState`) holding the rows of
every table of `migrations/0001_init.sql`; each storage function becomes a
pure state-passing function.  SQL `now()` becomes an explicit `now : Nat`
argument.  ULIDs (time-sortable, globally unique random ids) are modelled by
a strictly increasing counter in the state, so freshly generated ids are
unique.  The SHA-256 digest used by `sha256.ts` is implemented bit-for-bit
below (`sha256`), so digests are genuinely deterministic functions of the
bytes.
-/

set_option maxHeartbeats 1000000
set_option maxRecDepth 4000

namespace Wetblob

/-! ## SHA-256 (`src/sha256.ts`, via node crypto)

`sha256.ts` returns `'sha256:' + createHash('sha256').update(bytes).digest('hex')`.
The algorithm is FIPS 180-4 SHA-256, implemented here over byte lists
(`List Nat`, each entry < 256), with 32-bit words as `Nat` reduced mod `2^32`. -/

/-- Truncate to a 32-bit word. -/
def w32 (n : Nat) : Nat := n % 4294967296

/-- Rotate a 32-bit word right by `n` bits. -/
def rotr32 (n x : Nat) : Nat := w32 ((x >>> n) ||| (x <<< (32 - n)))

/-- SHA-256 big sigma 0. -/
def bigS0 (x : Nat) : Nat := rotr32 2 x ^^^ rotr32 13 x ^^^ rotr32 22 x

/-- SHA-256 big sigma 1. -/
def bigS1 (x : Nat) : Nat := rotr32 6 x ^^^ rotr32 11 x ^^^ rotr32 25 x

/-- SHA-256 small sigma 0. -/
def smallS0 (x : Nat) : Nat := rotr32 7 x ^^^ rotr32 18 x ^^^ (x >>> 3)

/-- SHA-256 small sigma 1. -/
def smallS1 (x : Nat) : Nat := rotr32 17 x ^^^ rotr32 19 x ^^^ (x >>> 10)

/-- SHA-256 choose function. -/
def chF (e f g : Nat) : Nat := (e &&& f) ^^^ ((e ^^^ 4294967295) &&& g)

/-- SHA-256 majority function. -/
def majF (a b c : Nat) : Nat := (a &&& b) ^^^ (a &&& c) ^^^ (b &&& c)

/-- The 64 SHA-256 round constants of FIPS 180-4 (in decimal). -/
def K256 : Array Nat := #[
  1116352408, 1899447441, 3049323471, 3921009573, 961987163, 1508970993,
  2453635748, 2870763221, 3624381080, 310598401, 607225278, 1426881987,
  1925078388, 2162078206, 2614888103, 3248222580, 3835390401, 4022224774,
  264347078, 604807628, 770255983, 1249150122, 1555081692, 1996064986,
  2554220882, 2821834349, 2952996808, 3210313671, 3336571891, 3584528711,
  113926993, 338241895, 666307205, 773529912, 1294757372, 1396182291,
  1695183700, 1986661051, 2177026350, 2456956037, 2730485921, 2820302411,
  3259730800, 3345764771, 3516065817, 3600352804, 4094571909, 275423344,
  430227734, 506948616, 659060556, 883997877, 958139571, 1322822218,
  1537002063, 1747873779, 1955562222, 2024104815, 2227730452, 2361852424,
  2428436474, 2756734187, 3204031479, 3329325298]

/-- The SHA-256 initial hash value of FIPS 180-4 (in decimal). -/
def H256 : List Nat :=
  [1779033703, 3144134277, 1013904242, 2773480762,
   1359893119, 2600822924, 528734635, 1541459225]

/-- Pad a byte message per FIPS 180-4: append `0x80`, zeros, then the bit
length as 8 big-endian bytes, reaching a multiple of 64 bytes. -/
def padMessage (m : List Nat) : List Nat :=
  let L := m.length
  let z := (120 - (L + 1) % 64) % 64
  m ++ [128] ++ List.replicate z 0 ++ (List.range 8).map (fun i => ((8 * L) >>> (8 * (7 - i))) &&& 255)

/-- The `i`-th big-endian 32-bit word of a byte list. -/
def wordAt (l : List Nat) (i : Nat) : Nat :=
  ((l.getD (4 * i) 0) <<< 24) ||| ((l.getD (4 * i + 1) 0) <<< 16) |||
    ((l.getD (4 * i + 2) 0) <<< 8) ||| l.getD (4 * i + 3) 0

/-- The 64-entry message schedule of one 64-byte block. -/
def schedule (block : List Nat) : Array Nat :=
  let w0 := (Array.range 16).map (fun i => wordAt block i)
  (List.range 48).foldl (fun w j =>
    let t := j + 16
    w.push (w32 (smallS1 (w.getD (t - 2) 0) + w.getD (t - 7) 0 +
      smallS0 (w.getD (t - 15) 0) + w.getD (t - 16) 0))) w0

/-- One SHA-256 compression step over a 64-byte block. -/
def compress (h : List Nat) (block : List Nat) : List Nat :=
  let w := schedule block
  let init8 : Nat × Nat × Nat × Nat × Nat × Nat × Nat × Nat :=
    (h.getD 0 0, h.getD 1 0, h.getD 2 0, h.getD 3 0, h.getD 4 0, h.getD 5 0, h.getD 6 0, h.getD 7 0)
  let r := (List.range 64).foldl (fun s t =>
    let (a, b, c, d, e, f, g, hh) := s
    let t1 := w32 (hh + bigS1 e + chF e f g + K256.getD t 0 + w.getD t 0)
    let t2 := w32 (bigS0 a + majF a b c)
    (w32 (t1 + t2), a, b, c, w32 (d + t1), e, f, g)) init8
  let (a, b, c, d, e, f, g, hh) := r
  [w32 (h.getD 0 0 + a), w32 (h.getD 1 0 + b), w32 (h.getD 2 0 + c), w32 (h.getD 3 0 + d),
   w32 (h.getD 4 0 + e), w32 (h.getD 5 0 + f), w32 (h.getD 6 0 + g), w32 (h.getD 7 0 + hh)]

/-- The eight 32-bit words of the SHA-256 digest of a byte list. -/
def sha256Words (m : List Nat) : List Nat :=
  let p := padMessage m
  (List.range (p.length / 64)).foldl (fun h i => compress h ((p.drop (64 * i)).take 64)) H256

/-- Lower-case hex digit (`Nat.digitChar` maps 0–15 to `0`–`9`, `a`–`f`). -/
def hexDigitChar (d : Nat) : Char := Nat.digitChar d

/-- A 32-bit word as 8 lower-case hex characters. -/
def hex8 (n : Nat) : String :=
  String.mk ((List.range 8).map (fun i => hexDigitChar ((n >>> (4 * (7 - i))) &&& 15)))

/-- `sha256(bytes)` of `src/sha256.ts`: `'sha256:' + <hex digest>`. -/
def sha256 (bytes : List Nat) : String :=
  "sha256:" ++ (sha256Words bytes).foldl (fun s wd => s ++ hex8 wd) ""

/-- Sanity anchor: the SHA-256 digest of the empty message matches the
published test vector. -/
theorem sha256_empty_vector :
    sha256 [] = "sha256:e3b0c44298fc1c149afbf4c8996fb92427ae41e4649b934ca495991b7852b855" := by
  decide

/-- Sanity anchor: the SHA-256 digest of `"abc"` matches the published test
vector. -/
theorem sha256_abc_vector :
    sha256 [97, 98, 99] = "sha256:ba7816bf8f01cfea414140de5dae2223b00361a396177a9cb410ff61f20015ad" := by
  decide

/-! ## Data model (`migrations/0001_init.sql`, `src/types.ts`)

Rows are modelled as structures, one per table.  Timestamps are `Nat`.
Entity ids generated by `ulid()` are modelled as `Nat` drawn from a strictly
increasing counter in the state (`ulid()` is time-sortable and random, hence
globally unique); blob ids stay strings of the form `sha256:<hex>` as in the
schema.  JSONB values are modelled by the inductive `MetaVal`, and JSONB
objects by association lists. -/

/-- The aggregated stats written by the collector runner
(`collect/runner.ts`, `RunStats`). -/
structure RunStats where
  urlsAttempted : Nat
  urlsSucceeded : Nat
  itemsCreated : Nat
  bytesDownloaded : Nat
deriving DecidableEq, Repr

/-- A JSONB value as used in `meta` / `metrics` / `payload` / `data` columns. -/
inductive MetaVal where
  | s (v : String)
  | n (v : Nat)
  | b (v : Bool)
  | null
  | strMap (v : List (String × String))
  | strList (v : List String)
  | stats (v : RunStats)
deriving DecidableEq, Repr

/-- `jsonb_set(m, '{k}', v)`: replace the value at key `k`, or append the key
when missing (PostgreSQL `jsonb_set` with default `create_missing`). -/
def jsonbSet (m : List (String × MetaVal)) (k : String) (v : MetaVal) :
    List (String × MetaVal) :=
  if m.any (fun kv => kv.1 == k) then
    m.map (fun kv => if kv.1 == k then (k, v) else kv)
  else m ++ [(k, v)]

/-- Run status column: `running|succeeded|failed|canceled`. -/
inductive RunStatus where
  | running
  | succeeded
  | failed
  | canceled
deriving DecidableEq, Repr

/-- Task status column: `queued|leased|running|succeeded|failed|dead`. -/
inductive TaskStatus where
  | queued
  | leased
  | running
  | succeeded
  | failed
  | dead
deriving DecidableEq, Repr

/-- Run-log level column: `debug|info|warn|error`. -/
inductive LogLevel where
  | debug
  | info
  | warn
  | error
deriving DecidableEq, Repr

/-- A row of `blobs`. -/
structure Blob where
  blob_id : String
  size_bytes : Nat
  mime_type : Option String
  created_at : Nat
deriving DecidableEq, Repr

/-- A row of `items`.  `sensitivity` stays a string (its SQL type is TEXT;
`private` is a Lean keyword, so an enum would have to rename it anyway). -/
structure Item where
  item_id : Nat
  type : String
  title : Option String
  source_type : String
  source_id : String
  external_ref : Option String
  canonical_uri : Option String
  content_sha256 : Option String
  observed_at : Option Nat
  tags : List String
  sensitivity : String
  blob_id : Option String
  text_content : Option String
  meta : List (String × MetaVal)
  created_at : Nat
  updated_at : Nat
deriving DecidableEq, Repr

/-- A row of `edges`. -/
structure Edge where
  edge_id : Nat
  from_item_id : Nat
  to_item_id : Nat
  rel : String
  meta : List (String × MetaVal)
  created_at : Nat
deriving DecidableEq, Repr

/-- A row of `runs` (with the `normalization_version` / `collector_version`
columns added by the later migration; `normalization_version` is NOT NULL). -/
structure Run where
  run_id : Nat
  parent_run_id : Option Nat
  kind : String
  actor : Option String
  tool_name : Option String
  tool_version : Option String
  idempotency_key : Option String
  normalization_version : String
  collector_version : Option String
  status : RunStatus
  started_at : Nat
  finished_at : Option Nat
  error : Option String
  metrics : List (String × MetaVal)
deriving DecidableEq, Repr

/-- A row of `run_logs`. -/
structure RunLog where
  log_id : Nat
  run_id : Nat
  level : LogLevel
  message : String
  data : List (String × MetaVal)
  created_at : Nat
deriving DecidableEq, Repr

/-- A row of `tasks`. -/
structure Task where
  task_id : Nat
  run_id : Option Nat
  type : String
  payload : List (String × MetaVal)
  status : TaskStatus
  priority : Int
  due_at : Nat
  attempts : Nat
  max_attempts : Nat
  locked_until : Option Nat
  locked_by : Option String
  last_error : Option String
  created_at : Nat
  updated_at : Nat
deriving DecidableEq, Repr

/-- The whole database: the rows of every table, plus the id-supply counter
for `ulid()`.  `runOutputs` / `runInputs` are the `(run_id, item_id)` join
rows. -/
structure DbState where
  blobs : List Blob
  items : List Item
  edges : List Edge
  runs : List Run
  runInputs : List (Nat × Nat)
  runOutputs : List (Nat × Nat)
  runLogs : List RunLog
  tasks : List Task
  nextId : Nat
deriving DecidableEq, Repr

/-- The empty database. -/
def DbState.empty : DbState :=
  { blobs := [], items := [], edges := [], runs := [], runInputs := [],
    runOutputs := [], runLogs := [], tasks := [], nextId := 0 }

/-- PostgreSQL errors surfaced by the storage layer: check-constraint
violations (SQLSTATE 23514), unique violations (23505, the code putBlob
catches), and foreign-key violations (23503), each carrying the constraint
name. -/
inductive DbError where
  | checkViolation (constraintName : String)
  | uniqueViolation (constraintName : String)
  | fkViolation (constraintName : String)
deriving DecidableEq, Repr

/-- Decidable equality for `Except` results (fallible operations return
`Except DbError ...`). -/
instance {ε α : Type} [DecidableEq ε] [DecidableEq α] : DecidableEq (Except ε α) := fun x y =>
  match x, y with
  | .ok a, .ok b =>
    if h : a = b then .isTrue (by rw [h]) else .isFalse (fun hh => h (Except.ok.inj hh))
  | .error a, .error b =>
    if h : a = b then .isTrue (by rw [h]) else .isFalse (fun hh => h (Except.error.inj hh))
  | .ok _, .error _ => .isFalse (fun hh => Except.noConfusion hh)
  | .error _, .ok _ => .isFalse (fun hh => Except.noConfusion hh)

/-- `ulid()` (`src/ulid.ts`): returns a fresh globally unique id.  Modelled
by the state counter; uniqueness of the random time-sorted ids becomes
strict growth of the counter. -/
def ulid (s : DbState) : Nat × DbState :=
  (s.nextId, { s with nextId := s.nextId + 1 })

/-! ## BlobStore (`src/store.blob.ts`) -/

/-- Result type of `putBlob`. -/
structure PutBlobResult where
  blobId : String
  inserted : Bool
deriving DecidableEq, Repr

/-- `putBlob(db, {bytes, mimeType})`: computes the digest, INSERTs the row,
and catches the primary-key unique violation (23505) to report
`inserted=false` without writing (the failed INSERT statement writes
nothing). -/
def putBlob (s : DbState) (now : Nat) (bytes : List Nat) (mimeType : Option String) :
    PutBlobResult × DbState :=
  let blobId := sha256 bytes
  if s.blobs.any (fun b => b.blob_id == blobId) then
    ({ blobId := blobId, inserted := false }, s)
  else
    ({ blobId := blobId, inserted := true },
     { s with blobs := s.blobs ++
        [{ blob_id := blobId, size_bytes := bytes.length, mime_type := mimeType,
           created_at := now }] })

/-- `getBlob(db, blobId)`. -/
def getBlob (s : DbState) (blobId : String) : Option Blob :=
  s.blobs.find? (fun b => b.blob_id == blobId)

/-! ## ItemCatalog (`src/store.items.ts`) -/

/-- `CreateItemInput` of `store.items.ts`. -/
structure CreateItemInput where
  type : String
  title : Option String := none
  source_type : String
  source_id : String
  external_ref : Option String := none
  canonical_uri : Option String := none
  content_sha256 : Option String := none
  observed_at : Option Nat := none
  tags : Option (List String) := none
  sensitivity : Option String := none
  blob_id : Option String := none
  text_content : Option String := none
  meta : Option (List (String × MetaVal)) := none
deriving DecidableEq, Repr

/-- The `items_one_payload` CHECK constraint of `migrations/0001_init.sql`:
exactly one of `blob_id` / `text_content` is non-null. -/
def itemsOnePayload (blobId : Option String) (textContent : Option String) : Bool :=
  (blobId.isSome && textContent.isNone) || (blobId.isNone && textContent.isSome)

/-- Whether an item id exists (used by the FK checks of edges and join
tables). -/
def itemExists (s : DbState) (itemId : Nat) : Bool :=
  s.items.any (fun i => i.item_id == itemId)

/-- Whether a referenced blob id is dangling (the `items.blob_id` FK). -/
def blobRefMissing (s : DbState) (blobId : Option String) : Bool :=
  match blobId with
  | none => false
  | some b => !(s.blobs.any (fun x => x.blob_id == b))

/-- The row `createItem` INSERTs: the input fields with the defaults
`tags ?? []`, `sensitivity ?? 'private'`, `meta ?? {}` applied and the
schema defaults `created_at = updated_at = now()`. -/
def createItemRow (itemId : Nat) (now : Nat) (input : CreateItemInput) : Item :=
  { item_id := itemId, type := input.type, title := input.title,
    source_type := input.source_type, source_id := input.source_id,
    external_ref := input.external_ref, canonical_uri := input.canonical_uri,
    content_sha256 := input.content_sha256, observed_at := input.observed_at,
    tags := input.tags.getD [], sensitivity := input.sensitivity.getD "private",
    blob_id := input.blob_id, text_content := input.text_content,
    meta := input.meta.getD [], created_at := now, updated_at := now }

/-- `createItem(db, input)`: INSERT the row, subject to the
`items_one_payload` CHECK constraint and the `blob_id` foreign key of the
schema.  The generated `item_id` is fresh, so its primary key cannot
collide. -/
def createItem (s : DbState) (now : Nat) (input : CreateItemInput) :
    Except DbError (Item × DbState) :=
  let (itemId, s1) := ulid s
  let row := createItemRow itemId now input
  if !itemsOnePayload row.blob_id row.text_content then
    .error (.checkViolation "items_one_payload")
  else if blobRefMissing s1 row.blob_id then
    .error (.fkViolation "items_blob_id_fkey")
  else
    .ok (row, { s1 with items := s1.items ++ [row] })

/-- `findItem(db, itemId)`. -/
def findItem (s : DbState) (itemId : Nat) : Option Item :=
  s.items.find? (fun i => i.item_id == itemId)

/-- Stable insertion into a list descending by `created_at` (earlier rows
stay first among equal timestamps). -/
def insertByCreatedDesc (x : Item) : List Item → List Item
  | [] => [x]
  | y :: ys => if y.created_at ≤ x.created_at then x :: y :: ys else y :: insertByCreatedDesc x ys

/-- Stable sort by `created_at` descending: models both the SQL
`ORDER BY created_at DESC` of the match queries and the JavaScript stable
`Array.prototype.sort` re-sort in `collectUrl`. -/
def sortByCreatedDesc : List Item → List Item
  | [] => []
  | x :: xs => insertByCreatedDesc x (sortByCreatedDesc xs)

/-- The list-level core of `findItemsByCanonicalUri`:
`SELECT * FROM items WHERE canonical_uri = $1 ORDER BY created_at DESC`. -/
def itemsByCanonicalUri (items : List Item) (uri : String) : List Item :=
  sortByCreatedDesc (items.filter (fun i => i.canonical_uri == some uri))

/-- The list-level core of `findItemsByContentSha256`:
`SELECT * FROM items WHERE content_sha256 = $1 ORDER BY created_at DESC`. -/
def itemsByContentSha256 (items : List Item) (h : String) : List Item :=
  sortByCreatedDesc (items.filter (fun i => i.content_sha256 == some h))

/-- `findItemsByCanonicalUri(db, canonicalUri)`. -/
def findItemsByCanonicalUri (s : DbState) (uri : String) : List Item :=
  itemsByCanonicalUri s.items uri

/-- `findItemsByContentSha256(db, contentSha256)`. -/
def findItemsByContentSha256 (s : DbState) (h : String) : List Item :=
  itemsByContentSha256 s.items h

/-! ## LineageGraph (`src/store.edges.ts`) -/

/-- `CreateEdgeInput` of `store.edges.ts`. -/
structure CreateEdgeInput where
  from_item_id : Nat
  to_item_id : Nat
  rel : String
  meta : Option (List (String × MetaVal)) := none
deriving DecidableEq, Repr

/-- `createEdge(db, input)`: INSERT subject to the two foreign keys on
`items` of the schema (`meta ?? {}`). -/
def createEdge (s : DbState) (now : Nat) (input : CreateEdgeInput) :
    Except DbError (Edge × DbState) :=
  let (edgeId, s1) := ulid s
  if !itemExists s1 input.from_item_id then
    .error (.fkViolation "edges_from_item_id_fkey")
  else if !itemExists s1 input.to_item_id then
    .error (.fkViolation "edges_to_item_id_fkey")
  else
    let row : Edge :=
      { edge_id := edgeId, from_item_id := input.from_item_id,
        to_item_id := input.to_item_id, rel := input.rel,
        meta := input.meta.getD [], created_at := now }
    .ok (row, { s1 with edges := s1.edges ++ [row] })

/-! ## RunLedger (`src/store.runs.ts`) -/

/-- Whether a run id exists (FK checks of join tables, logs and tasks). -/
def runExists (s : DbState) (runId : Nat) : Bool :=
  s.runs.any (fun r => r.run_id == runId)

/-- `addRunOutput(db, runId, itemId)`: INSERT into the `run_outputs` join
table subject to its two foreign keys and its `(run_id, item_id)` primary
key. -/
def addRunOutput (s : DbState) (runId itemId : Nat) : Except DbError DbState :=
  if !runExists s runId then .error (.fkViolation "run_outputs_run_id_fkey")
  else if !itemExists s itemId then .error (.fkViolation "run_outputs_item_id_fkey")
  else if s.runOutputs.any (fun p => p == (runId, itemId)) then
    .error (.uniqueViolation "run_outputs_pkey")
  else .ok { s with runOutputs := s.runOutputs ++ [(runId, itemId)] }

/-- `addRunInput(db, runId, itemId)`, symmetric to `addRunOutput`. -/
def addRunInput (s : DbState) (runId itemId : Nat) : Except DbError DbState :=
  if !runExists s runId then .error (.fkViolation "run_inputs_run_id_fkey")
  else if !itemExists s itemId then .error (.fkViolation "run_inputs_item_id_fkey")
  else if s.runInputs.any (fun p => p == (runId, itemId)) then
    .error (.uniqueViolation "run_inputs_pkey")
  else .ok { s with runInputs := s.runInputs ++ [(runId, itemId)] }

/-- `appendRunLog(db, runId, level, message, data)`: INSERT into `run_logs`
with a fresh `log_id`, subject to the `run_id` foreign key (`data ?? {}`). -/
def appendRunLog (s : DbState) (now : Nat) (runId : Nat) (level : LogLevel)
    (message : String) (data : Option (List (String × MetaVal))) :
    Except DbError DbState :=
  let (logId, s1) := ulid s
  if !runExists s1 runId then .error (.fkViolation "run_logs_run_id_fkey")
  else
    .ok { s1 with runLogs := s1.runLogs ++
      [{ log_id := logId, run_id := runId, level := level, message := message,
         data := data.getD [], created_at := now }] }

/-- The status argument of `store.runs.ts` `finishRun`:
`'succeeded' | 'failed' | 'canceled'`. -/
inductive FinishStatus where
  | succeeded
  | failed
  | canceled
deriving DecidableEq, Repr

/-- The run status a finish status maps to. -/
def FinishStatus.toRunStatus : FinishStatus → RunStatus
  | .succeeded => .succeeded
  | .failed => .failed
  | .canceled => .canceled

/-- `finishRun(db, runId, status, error?)` of `store.runs.ts`:
`UPDATE runs SET status=$2, finished_at=now(), error=$3 WHERE run_id=$1` —
an unconditional UPDATE with no status guard and no row-count check. -/
def finishRun (s : DbState) (now : Nat) (runId : Nat) (status : FinishStatus)
    (error : Option String) : DbState :=
  { s with runs := s.runs.map (fun r =>
      if r.run_id == runId then
        { r with status := status.toRunStatus, finished_at := some now, error := error }
      else r) }

/-- `getRun(db, runId)`. -/
def getRun (s : DbState) (runId : Nat) : Option Run :=
  s.runs.find? (fun r => r.run_id == runId)

/-! ## TaskQueue (`src/store.tasks.ts`) -/

/-- `EnqueueTaskInput` of `store.tasks.ts`. -/
structure EnqueueTaskInput where
  type : String
  payload : List (String × MetaVal)
  dueAt : Option Nat := none
  priority : Option Int := none
  runId : Option Nat := none
  maxAttempts : Option Nat := none
deriving DecidableEq, Repr

/-- `enqueueTask(db, input)`: INSERT with defaults
(`dueAt ?? new Date()`, `priority ?? 0`, `maxAttempts ?? 10`) and the
schema defaults `status='queued'`, `attempts=0`; subject to the `run_id`
foreign key when present. -/
def enqueueTask (s : DbState) (now : Nat) (input : EnqueueTaskInput) :
    Except DbError (Task × DbState) :=
  let (taskId, s1) := ulid s
  if (match input.runId with
      | none => false
      | some r => !runExists s1 r) then
    .error (.fkViolation "tasks_run_id_fkey")
  else
    let row : Task :=
      { task_id := taskId, run_id := input.runId, type := input.type,
        payload := input.payload, status := .queued,
        priority := input.priority.getD 0, due_at := input.dueAt.getD now,
        attempts := 0, max_attempts := input.maxAttempts.getD 10,
        locked_until := none, locked_by := none, last_error := none,
        created_at := now, updated_at := now }
    .ok (row, { s1 with tasks := s1.tasks ++ [row] })

/-- The WHERE clause of `leaseNextTask`: `status = 'queued' AND
due_at <= now() AND (locked_until IS NULL OR locked_until < now())`. -/
def taskEligible (now : Nat) (t : Task) : Bool :=
  t.status == TaskStatus.queued && Nat.ble t.due_at now &&
    (match t.locked_until with
     | none => true
     | some u => Nat.blt u now)

/-- One step of the `ORDER BY priority DESC, due_at ASC ... LIMIT 1`
selection: keep the better of the candidate so far and the next row
(strictly higher priority wins, then strictly earlier `due_at`; ties keep
the earlier row, matching the tie behaviour of a scan). -/
def pickStep (now : Nat) (best : Option Task) (t : Task) : Option Task :=
  if taskEligible now t then
    match best with
    | none => some t
    | some b =>
      if b.priority < t.priority ∨ (t.priority = b.priority ∧ t.due_at < b.due_at) then
        some t
      else best
  else best

/-- The `ORDER BY priority DESC, due_at ASC ... LIMIT 1` selection over the
eligible rows. -/
def pickNextTask (now : Nat) (ts : List Task) : Option Task :=
  ts.foldl (pickStep now) none

/-- The SET clause of the lease UPDATE applied to the selected row:
`status='leased'`, `locked_until = now() + leaseMs`,
`locked_by = workerId`, `updated_at = now()`. -/
def leasedTaskRow (t : Task) (now : Nat) (workerId : String) (leaseMs : Nat) : Task :=
  { t with
    status := .leased, locked_until := some (now + leaseMs),
    locked_by := some workerId, updated_at := now }

/-- `leaseNextTask(db, workerId, leaseMs)`: the single-statement CTE
`SELECT ... FOR UPDATE SKIP LOCKED LIMIT 1` + `UPDATE` run in one
transaction.  The statement is atomic, so it is modelled as one state
transition: select the next eligible task and set it to `leased` with
`locked_until = now() + leaseMs` and `locked_by = workerId`. -/
def leaseNextTask (s : DbState) (now : Nat) (workerId : String) (leaseMs : Nat) :
    Option Task × DbState :=
  match pickNextTask now s.tasks with
  | none => (none, s)
  | some t =>
    let leased := leasedTaskRow t now workerId leaseMs
    (some leased,
     { s with tasks := s.tasks.map (fun x => if x.task_id == t.task_id then leased else x) })

/-- `markTaskRunning(db, taskId)`: unconditional status UPDATE. -/
def markTaskRunning (s : DbState) (now : Nat) (taskId : Nat) : DbState :=
  { s with tasks := s.tasks.map (fun t =>
      if t.task_id == taskId then { t with status := .running, updated_at := now } else t) }

/-- `markTaskSucceeded(db, taskId)`: unconditional status UPDATE (no guard
on the current status). -/
def markTaskSucceeded (s : DbState) (now : Nat) (taskId : Nat) : DbState :=
  { s with tasks := s.tasks.map (fun t =>
      if t.task_id == taskId then { t with status := .succeeded, updated_at := now } else t) }

/-- The SET clause of `markTaskFailed` applied to one row:
`status = CASE WHEN attempts + 1 >= max_attempts THEN 'dead' ELSE 'queued'
END`, `attempts = attempts + 1`, `last_error`, lock fields cleared. -/
def failedTaskRow (t : Task) (now : Nat) (error : String) : Task :=
  { t with
    status := if t.attempts + 1 ≥ t.max_attempts then .dead else .queued,
    attempts := t.attempts + 1, last_error := some error,
    locked_until := none, locked_by := none, updated_at := now }

/-- `markTaskFailed(db, taskId, error)`: increments `attempts`, moves to
`dead` when `attempts + 1 >= max_attempts` and back to `queued` otherwise,
records `last_error` and clears the lock fields — again with no guard on
the current status. -/
def markTaskFailed (s : DbState) (now : Nat) (taskId : Nat) (error : String) : DbState :=
  { s with tasks := s.tasks.map (fun t =>
      if t.task_id == taskId then failedTaskRow t now error else t) }

/-- `getTask(db, taskId)`. -/
def getTask (s : DbState) (taskId : Nat) : Option Task :=
  s.tasks.find? (fun t => t.task_id == taskId)

/-! ## Collector run ledger (`src/collect/runner.ts`)

`index.ts` exports these as `startCollectorRun` / `finishCollectorRun`; the
file-local names are `startRun` / `finishRun`. -/

/-- `StartRunInput` of `collect/runner.ts`.  The config snapshot is carried
as its serialized JSON text. -/
structure StartRunInput where
  collectorType : String
  collectorName : String
  normalizationVersion : String
  idempotencyKey : String
  configSnapshot : String
deriving DecidableEq, Repr

/-- `StartRunResult` of `collect/runner.ts`. -/
structure StartRunResult where
  runId : Nat
  status : RunStatus
  createdAt : Nat
deriving DecidableEq, Repr

/-- The `IdempotencyConflictError` thrown by `startRun`. -/
inductive StartRunError where
  | idempotencyConflict (existingRunId : Nat)
deriving DecidableEq, Repr

/-- The run row `startRun` of `collect/runner.ts` INSERTs: `kind='cli'`,
`actor=null`, `tool_name=collectorName`, `tool_version='1.0.0'`,
`collector_version` holding the collector type (the schema field is
repurposed), `status='running'`, `metrics={configSnapshot}`. -/
def startRunRow (runId : Nat) (now : Nat) (input : StartRunInput) : Run :=
  { run_id := runId, parent_run_id := none, kind := "cli", actor := none,
    tool_name := some input.collectorName, tool_version := some "1.0.0",
    idempotency_key := some input.idempotencyKey,
    normalization_version := input.normalizationVersion,
    collector_version := some input.collectorType, status := .running,
    started_at := now, finished_at := none, error := none,
    metrics := [("configSnapshot", MetaVal.s input.configSnapshot)] }

/-- `startRun(input)` of `collect/runner.ts`: SELECT the run with the given
idempotency key (the partial unique index `idx_runs_idempotency_key`
guarantees at most one, so `oneOrNone` is `find?`); throw
`idempotency_conflict` carrying `existingRunId` when found, otherwise
INSERT a fresh run with `kind='cli'`, `tool_version='1.0.0'`,
`collector_version` holding the collector type, `status='running'` and
`metrics={configSnapshot}`. -/
def startCollectorRun (s : DbState) (now : Nat) (input : StartRunInput) :
    Except StartRunError (StartRunResult × DbState) :=
  match s.runs.find? (fun r => r.idempotency_key == some input.idempotencyKey) with
  | some existing => .error (.idempotencyConflict existing.run_id)
  | none =>
    let (runId, s1) := ulid s
    let row := startRunRow runId now input
    .ok ({ runId := runId, status := .running, createdAt := now },
         { s1 with runs := s1.runs ++ [row] })

/-- The status argument of `collect/runner.ts` `finishRun`:
`'succeeded' | 'failed'`. -/
inductive CollectFinishStatus where
  | succeeded
  | failed
deriving DecidableEq, Repr

/-- The run status a collector finish status maps to. -/
def CollectFinishStatus.toRunStatus : CollectFinishStatus → RunStatus
  | .succeeded => .succeeded
  | .failed => .failed

/-- The SET clause of `collect/runner.ts` `finishRun` applied to one row:
status, `finished_at=now()`, `error=errorSummary`, and the stats merged into
`metrics` under the `stats` key plus `finished=true`. -/
def finishRunRow (r : Run) (now : Nat) (status : CollectFinishStatus)
    (stats : RunStats) (errorSummary : Option String) : Run :=
  { r with
    status := status.toRunStatus, finished_at := some now, error := errorSummary,
    metrics := jsonbSet (jsonbSet r.metrics "stats" (MetaVal.stats stats))
      "finished" (MetaVal.b true) }

/-- `finishRun(input)` of `collect/runner.ts`: `UPDATE runs SET status=$2,
finished_at=now(), error=$3, metrics=jsonb_set(jsonb_set(metrics,'{stats}',
$4),'{finished}','true') WHERE run_id=$1` — an unconditional UPDATE with no
status guard and no row-count check. -/
def finishCollectorRun (s : DbState) (now : Nat) (runId : Nat)
    (status : CollectFinishStatus) (stats : RunStats) (errorSummary : Option String) :
    DbState :=
  { s with runs := s.runs.map (fun r =>
      if r.run_id == runId then finishRunRow r now status stats errorSummary else r) }

/-! ## The http_snapshot collector (`src/collect/http-snapshot.ts`)

`collectUrl` imports `normalizeUrl` and `computeContentSha256` from
`collect/normalize.ts`.  The spec places the URL-normalization and
text-extraction algorithms out of scope ("treated as pure functions with a
documented contract, not reimplemented here"), so the embedding takes them
as function parameters: `normFn` stands for `normalizeUrl` and `hashFn` for
`bytes => computeContentSha256(bytes.toString('utf-8'), true)`.  The fetch
function is a parameter in the source itself (`FetchFn`). -/

/-- A fetch result as produced by a `FetchFn`. -/
structure FetchResponse where
  status : Nat
  headers : List (String × String)
  body : List Nat
deriving DecidableEq, Repr

/-- `response.headers['content-type']?.split(';')[0] || 'text/html'`. -/
def contentTypeOf (headers : List (String × String)) : String :=
  match headers.lookup "content-type" with
  | none => "text/html"
  | some v =>
    let m := String.mk (v.toList.takeWhile (fun c => c != ';'))
    if m == "" then "text/html" else m

/-- `HttpSnapshotResult` of `collect/http-snapshot.ts`. -/
structure HttpSnapshotResult where
  itemId : Nat
  url : String
  canonicalUri : String
  isNew : Bool
  supersededItemId : Option Nat := none
deriving DecidableEq, Repr

/-- Errors propagating out of the collector: the thrown
`HTTP <status> for <url>` error, or a storage-layer error. -/
inductive CollectError where
  | httpStatus (status : Nat) (url : String)
  | db (e : DbError)
deriving DecidableEq, Repr

/-- The uri-match selection of `collectUrl`: query by `canonical_uri` when
the canonical uri is truthy (non-empty), stable-sort by `created_at`
descending (JavaScript `sort` over the already-DESC-ordered query result)
and take the first element. -/
def uriMatchOf (items : List Item) (canonicalUri : String) : Option Item :=
  if canonicalUri == "" then none
  else (sortByCreatedDesc (itemsByCanonicalUri items canonicalUri)).head?

/-- The hash-match selection of `collectUrl` (the digest string
`sha256:<hex>` is always non-empty, so there is no truthiness guard). -/
def hashMatchOf (items : List Item) (contentSha256 : String) : Option Item :=
  (sortByCreatedDesc (itemsByContentSha256 items contentSha256)).head?

/-- A JSON string-or-null from an optional string. -/
def optStrVal : Option String → MetaVal
  | none => .null
  | some v => .s v

/-- A JSON id-or-null from an optional item id (`x?.item_id ?? null`). -/
def optIdVal : Option Nat → MetaVal
  | none => .null
  | some v => .n v

/-- The tail of `collectUrl` when no supersedes edge is created: append the
`Created new item` info log and return `isNew: true`.  (The log messages
keep the ids in the structured `data`; the interpolated message text is
abbreviated.) -/
def collectUrlNewItem (s : DbState) (now runId : Nat) (item : Item)
    (url canonicalUri : String) : Except CollectError HttpSnapshotResult × DbState :=
  match appendRunLog s now runId .info ("Created new item for " ++ url)
      (some [("item_id", MetaVal.n item.item_id), ("canonical_uri", MetaVal.s canonicalUri)]) with
  | .error e => (.error (.db e), s)
  | .ok s1 =>
    (.ok { itemId := item.item_id, url := url, canonicalUri := canonicalUri,
           isNew := true, supersededItemId := none }, s1)

/-- `collectUrl(db, runId, url, observedAt, fetchFn)`: normalize the URL,
fetch, reject non-2xx statuses, store the blob, compute the content hash,
query both match sets, resolve digest-over-uri precedence, create the new
item (always), link it as a run output, and create the supersedes edge and
run log when a predecessor was selected.  Each SQL statement runs on its
own (there is no wrapping transaction), so an error after a write keeps the
writes made so far: the state is returned alongside the error. -/
def collectUrl (normFn : String → String) (hashFn : List Nat → String)
    (fetchFn : String → FetchResponse) (s : DbState) (now runId : Nat)
    (url : String) (observedAt : Nat) :
    Except CollectError HttpSnapshotResult × DbState :=
  let canonicalUri := normFn url
  let resp := fetchFn url
  if resp.status < 200 ∨ 300 ≤ resp.status then
    (.error (.httpStatus resp.status url), s)
  else
    let mimeType := contentTypeOf resp.headers
    let pb := putBlob s now resp.body (some mimeType)
    let blobResult := pb.1
    let s1 := pb.2
    let contentSha256 := hashFn resp.body
    let uriMatch := uriMatchOf s1.items canonicalUri
    let hashMatch := hashMatchOf s1.items contentSha256
    let resolved : Option Item × Bool × Option String :=
      match hashMatch, uriMatch with
      | some hm, some um =>
        if hm.item_id ≠ um.item_id then (some hm, true, some "content_sha256")
        else (some hm, false, some "content_sha256")
      | some hm, none => (some hm, false, some "content_sha256")
      | none, some um => (some um, false, some "canonical_uri")
      | none, none => (none, false, none)
    let existingItem := resolved.1
    let conflictResolved := resolved.2.1
    let selectedMatch := resolved.2.2
    match createItem s1 now
        { type := "intel.webpage", source_type := "collector",
          source_id := "http_snapshot", external_ref := some url,
          canonical_uri := some canonicalUri, content_sha256 := some contentSha256,
          observed_at := some observedAt, blob_id := some blobResult.blobId,
          meta := some [("fetch_status", MetaVal.n resp.status),
                        ("fetch_headers", MetaVal.strMap resp.headers),
                        ("blob_inserted", MetaVal.b blobResult.inserted)] } with
    | .error e => (.error (.db e), s1)
    | .ok (item, s2) =>
      match addRunOutput s2 runId item.item_id with
      | .error e => (.error (.db e), s2)
      | .ok s3 =>
        match existingItem with
        | none => collectUrlNewItem s3 now runId item url canonicalUri
        | some ex =>
          if ex.item_id == item.item_id then
            collectUrlNewItem s3 now runId item url canonicalUri
          else
            let edgeMeta : List (String × MetaVal) :=
              [("reason", optStrVal selectedMatch),
               ("original_canonical_uri", optStrVal ex.canonical_uri),
               ("new_canonical_uri", MetaVal.s canonicalUri)] ++
              (if conflictResolved then
                [("conflict_resolved", MetaVal.b true),
                 ("canonical_uri_match", optIdVal (uriMatch.map Item.item_id)),
                 ("content_sha256_match", optIdVal (hashMatch.map Item.item_id)),
                 ("selected", optStrVal selectedMatch)]
               else [])
            match createEdge s3 now
                { from_item_id := ex.item_id, to_item_id := item.item_id,
                  rel := "supersedes", meta := some edgeMeta } with
            | .error e => (.error (.db e), s3)
            | .ok (_, s4) =>
              let logMessage :=
                if conflictResolved then
                  "Conflict resolved: content_sha256 match takes precedence over canonical_uri match"
                else
                  "Found existing item with same match, linked via supersedes edge"
              match appendRunLog s4 now runId (if conflictResolved then .warn else .info)
                  logMessage
                  (some [("existing_item_id", MetaVal.n ex.item_id),
                         ("new_item_id", MetaVal.n item.item_id),
                         ("conflict_resolved", MetaVal.b conflictResolved),
                         ("selected_match", optStrVal selectedMatch)]) with
              | .error e => (.error (.db e), s4)
              | .ok s5 =>
                (.ok { itemId := item.item_id, url := url, canonicalUri := canonicalUri,
                       isNew := false, supersededItemId := some ex.item_id }, s5)

/-- The `for (const url of config.urls)` loop of `collectHttpSnapshot`: on a
per-URL failure the catch block appends an `error` log and then **rethrows**
(`throw error`), so the remaining URLs are not processed; on reaching the
end it appends the `Completed` info log. -/
def collectLoop (normFn : String → String) (hashFn : List Nat → String)
    (fetchFn : String → FetchResponse) (s : DbState) (now runId observedAt : Nat)
    (acc : List HttpSnapshotResult) :
    List String → Except CollectError (List HttpSnapshotResult) × DbState
  | [] =>
    match appendRunLog s now runId .info "Completed http_snapshot collector"
        (some [("success_count", MetaVal.n acc.length),
               ("new_items", MetaVal.n (acc.filter (fun r => r.isNew)).length),
               ("superseded_items", MetaVal.n (acc.filter (fun r => !r.isNew)).length)]) with
    | .error e => (.error (.db e), s)
    | .ok s1 => (.ok acc, s1)
  | url :: rest =>
    match collectUrl normFn hashFn fetchFn s now runId url observedAt with
    | (.ok r, s1) => collectLoop normFn hashFn fetchFn s1 now runId observedAt (acc ++ [r]) rest
    | (.error e, s1) =>
      match appendRunLog s1 now runId .error ("Failed to collect " ++ url) none with
      | .error e2 => (.error (.db e2), s1)
      | .ok s2 => (.error e, s2)

/-- `collectHttpSnapshot(db, runId, config, fetchFn)`: one `observedAt`
timestamp for the whole run (`new Date()` at entry, here `now`), a
`Starting` info log, then the per-URL loop. -/
def collectHttpSnapshot (normFn : String → String) (hashFn : List Nat → String)
    (fetchFn : String → FetchResponse) (s : DbState) (now runId : Nat)
    (urls : List String) : Except CollectError (List HttpSnapshotResult) × DbState :=
  match appendRunLog s now runId .info "Starting http_snapshot collector"
      (some [("url_count", MetaVal.n urls.length), ("urls", MetaVal.strList urls)]) with
  | .error e => (.error (.db e), s)
  | .ok s1 => collectLoop normFn hashFn fetchFn s1 now runId now [] urls

/-! ## Concrete fixtures for witnesses and counterexamples -/

/-- A run row fixture. -/
def mkRun (runId : Nat) (key : Option String) (nv : String) (status : RunStatus) : Run :=
  { run_id := runId, parent_run_id := none, kind := "cli", actor := none,
    tool_name := none, tool_version := none, idempotency_key := key,
    normalization_version := nv, collector_version := none, status := status,
    started_at := 0, finished_at := none, error := none, metrics := [] }

/-- A task row fixture. -/
def mkTask (taskId : Nat) (status : TaskStatus) (priority : Int) (dueAt : Nat)
    (attempts maxAttempts : Nat) (lockedUntil : Option Nat) : Task :=
  { task_id := taskId, run_id := none, type := "test.task", payload := [],
    status := status, priority := priority, due_at := dueAt, attempts := attempts,
    max_attempts := maxAttempts, locked_until := lockedUntil, locked_by := none,
    last_error := none, created_at := 0, updated_at := 0 }

/-! ## Lemmas about `putBlob` and the match queries -/

/-- `putBlob` leaves the items unchanged. -/
theorem putBlob_items (s : DbState) (now : Nat) (bytes : List Nat) (mt : Option String) :
    (putBlob s now bytes mt).2.items = s.items := by
  simp only [putBlob]
  split <;> rfl

/-- `putBlob` leaves the runs unchanged. -/
theorem putBlob_runs (s : DbState) (now : Nat) (bytes : List Nat) (mt : Option String) :
    (putBlob s now bytes mt).2.runs = s.runs := by
  simp only [putBlob]
  split <;> rfl

/-- `putBlob` leaves the edges unchanged. -/
theorem putBlob_edges (s : DbState) (now : Nat) (bytes : List Nat) (mt : Option String) :
    (putBlob s now bytes mt).2.edges = s.edges := by
  simp only [putBlob]
  split <;> rfl

/-- `putBlob` leaves the run outputs unchanged. -/
theorem putBlob_runOutputs (s : DbState) (now : Nat) (bytes : List Nat) (mt : Option String) :
    (putBlob s now bytes mt).2.runOutputs = s.runOutputs := by
  simp only [putBlob]
  split <;> rfl

/-- `putBlob` leaves the run inputs unchanged. -/
theorem putBlob_runInputs (s : DbState) (now : Nat) (bytes : List Nat) (mt : Option String) :
    (putBlob s now bytes mt).2.runInputs = s.runInputs := by
  simp only [putBlob]
  split <;> rfl

/-- `putBlob` leaves the run logs unchanged. -/
theorem putBlob_runLogs (s : DbState) (now : Nat) (bytes : List Nat) (mt : Option String) :
    (putBlob s now bytes mt).2.runLogs = s.runLogs := by
  simp only [putBlob]
  split <;> rfl

/-- `putBlob` leaves the tasks unchanged. -/
theorem putBlob_tasks (s : DbState) (now : Nat) (bytes : List Nat) (mt : Option String) :
    (putBlob s now bytes mt).2.tasks = s.tasks := by
  simp only [putBlob]
  split <;> rfl

/-- `putBlob` leaves the id supply unchanged. -/
theorem putBlob_nextId (s : DbState) (now : Nat) (bytes : List Nat) (mt : Option String) :
    (putBlob s now bytes mt).2.nextId = s.nextId := by
  simp only [putBlob]
  split <;> rfl

/-- After `putBlob`, the returned blob id is present in the store (either it
already was, or it was just inserted). -/
theorem putBlob_blob_found (s : DbState) (now : Nat) (bytes : List Nat) (mt : Option String) :
    ((putBlob s now bytes mt).2.blobs.any
      (fun x => x.blob_id == (putBlob s now bytes mt).1.blobId)) = true := by
  by_cases hc : (s.blobs.any (fun b => b.blob_id == sha256 bytes)) = true
  · simp [putBlob, hc]
  · simp [putBlob, hc, List.any_append]

/-- Membership is invariant under the stable insertion. -/
theorem mem_insertByCreatedDesc {x : Item} {l : List Item} {y : Item} :
    y ∈ insertByCreatedDesc x l ↔ y = x ∨ y ∈ l := by
  induction l with
  | nil => simp [insertByCreatedDesc]
  | cons z zs ih =>
    unfold insertByCreatedDesc
    split
    · simp [List.mem_cons]
    · simp [List.mem_cons, ih]
      tauto

/-- Membership is invariant under the stable sort. -/
theorem mem_sortByCreatedDesc {l : List Item} {y : Item} :
    y ∈ sortByCreatedDesc l ↔ y ∈ l := by
  induction l with
  | nil => simp [sortByCreatedDesc]
  | cons x xs ih =>
    simp [sortByCreatedDesc, mem_insertByCreatedDesc, ih, List.mem_cons]

/-- A hash match is an item of the catalog carrying that content hash. -/
theorem hashMatchOf_mem {items : List Item} {h : String} {A : Item}
    (hh : hashMatchOf items h = some A) : A ∈ items ∧ A.content_sha256 = some h := by
  unfold hashMatchOf at hh
  have hmem := List.mem_of_mem_head? (l := sortByCreatedDesc (itemsByContentSha256 items h))
    (by rw [hh]; rfl)
  rw [mem_sortByCreatedDesc] at hmem
  unfold itemsByContentSha256 at hmem
  rw [mem_sortByCreatedDesc] at hmem
  have := List.mem_filter.mp hmem
  exact ⟨this.1, eq_of_beq this.2⟩

/-- A uri match is an item of the catalog carrying that canonical uri. -/
theorem uriMatchOf_mem {items : List Item} {u : String} {B : Item}
    (hu : uriMatchOf items u = some B) : B ∈ items ∧ B.canonical_uri = some u := by
  unfold uriMatchOf at hu
  by_cases he : (u == "") = true
  · rw [if_pos he] at hu; cases hu
  · rw [if_neg he] at hu
    have hmem := List.mem_of_mem_head? (l := sortByCreatedDesc (itemsByCanonicalUri items u))
      (by rw [hu]; rfl)
    rw [mem_sortByCreatedDesc] at hmem
    unfold itemsByCanonicalUri at hmem
    rw [mem_sortByCreatedDesc] at hmem
    have := List.mem_filter.mp hmem
    exact ⟨this.1, eq_of_beq this.2⟩

/-! ## C10 — blob put is idempotent on identical bytes -/

/-- C10: for every byte sequence, putting it twice returns the same digest
both times (the digest is the deterministic SHA-256 of the bytes); when the
digest is not yet present, the first call reports `inserted=true`, the
second reports `inserted=false` and performs no further writes — the
existing row is never overwritten. -/
theorem putBlob_put_twice (s : DbState) (now1 now2 : Nat) (bytes : List Nat)
    (mt1 mt2 : Option String)
    (h : s.blobs.any (fun b => b.blob_id == sha256 bytes) = false) :
    (putBlob s now1 bytes mt1).1.blobId =
      (putBlob (putBlob s now1 bytes mt1).2 now2 bytes mt2).1.blobId ∧
    (putBlob s now1 bytes mt1).1.inserted = true ∧
    (putBlob (putBlob s now1 bytes mt1).2 now2 bytes mt2).1.inserted = false ∧
    (putBlob (putBlob s now1 bytes mt1).2 now2 bytes mt2).2 = (putBlob s now1 bytes mt1).2 := by
  simp [putBlob, h, List.any_append]

/-- Witness for C10 at the bytes `"abc"` on the empty store. -/
theorem putBlob_put_twice_witness :
    (DbState.empty.blobs.any (fun b => b.blob_id == sha256 [97, 98, 99]) = false) ∧
    ((putBlob DbState.empty 0 [97, 98, 99] none).1.blobId =
        (putBlob (putBlob DbState.empty 0 [97, 98, 99] none).2 1 [97, 98, 99] none).1.blobId ∧
      (putBlob DbState.empty 0 [97, 98, 99] none).1.inserted = true ∧
      (putBlob (putBlob DbState.empty 0 [97, 98, 99] none).2 1 [97, 98, 99] none).1.inserted = false ∧
      (putBlob (putBlob DbState.empty 0 [97, 98, 99] none).2 1 [97, 98, 99] none).2 =
        (putBlob DbState.empty 0 [97, 98, 99] none).2) :=
  ⟨by decide, putBlob_put_twice DbState.empty 0 1 [97, 98, 99] none none (by decide)⟩

/-! ## C5 — run start honours the idempotency key -/

/-- C5: starting a collector run with an idempotency key already used by an
existing run fails with the idempotency conflict carrying that run's id and
creates no row (the error branch returns before the INSERT); with an unused
key it creates a run with status `running`. -/
theorem startCollectorRun_idempotency (s : DbState) (now : Nat) (input : StartRunInput) :
    (∀ r, s.runs.find? (fun x => x.idempotency_key == some input.idempotencyKey) = some r →
       startCollectorRun s now input = .error (.idempotencyConflict r.run_id)) ∧
    (s.runs.find? (fun x => x.idempotency_key == some input.idempotencyKey) = none →
       ∃ res s', startCollectorRun s now input = .ok (res, s') ∧ res.status = .running ∧
         ∃ row, s'.runs = s.runs ++ [row] ∧ row.run_id = res.runId ∧ row.status = .running ∧
           row.idempotency_key = some input.idempotencyKey ∧
           row.normalization_version = input.normalizationVersion) := by
  constructor
  · intro r hr
    simp [startCollectorRun, hr]
  · intro h
    have key : startCollectorRun s now input =
        .ok ({ runId := s.nextId, status := .running, createdAt := now },
             { s with
               nextId := s.nextId + 1,
               runs := s.runs ++ [startRunRow s.nextId now input] }) := by
      simp [startCollectorRun, h, ulid]
    exact ⟨_, _, key, rfl, startRunRow s.nextId now input, rfl, rfl, rfl, rfl, rfl⟩

/-- Witness for C5: a state holding run 0 with key `"k"` rejects a second
start with key `"k"`, and the empty state accepts it. -/
theorem startCollectorRun_idempotency_witness :
    startCollectorRun { DbState.empty with runs := [mkRun 0 (some "k") "v1" .running], nextId := 1 }
        5 { collectorType := "http_snapshot", collectorName := "n",
            normalizationVersion := "v1", idempotencyKey := "k", configSnapshot := "cfg" } =
      .error (.idempotencyConflict 0) ∧
    (∃ res s', startCollectorRun DbState.empty 5
        { collectorType := "http_snapshot", collectorName := "n",
          normalizationVersion := "v1", idempotencyKey := "k", configSnapshot := "cfg" } =
        .ok (res, s') ∧ res.status = .running ∧
      ∃ row, s'.runs = DbState.empty.runs ++ [row] ∧ row.run_id = res.runId ∧
        row.status = .running ∧ row.idempotency_key = some "k" ∧
        row.normalization_version = "v1") := by
  constructor
  · exact (startCollectorRun_idempotency
      { DbState.empty with runs := [mkRun 0 (some "k") "v1" .running], nextId := 1 } 5
      { collectorType := "http_snapshot", collectorName := "n",
        normalizationVersion := "v1", idempotencyKey := "k", configSnapshot := "cfg" }).1
      (mkRun 0 (some "k") "v1" .running) (by decide)
  · exact (startCollectorRun_idempotency DbState.empty 5
      { collectorType := "http_snapshot", collectorName := "n",
        normalizationVersion := "v1", idempotencyKey := "k", configSnapshot := "cfg" }).2
      (by decide)

/-! ## C6 — finishing an already-terminal run -/

/-- Counterexample to C6: run 0 is already terminal (`succeeded`), yet a
further finish call is silently accepted and overwrites the status to
`failed` — no `NotFound` is raised (the function has no error channel at
all) and the run does not stay unchanged. -/
theorem finishCollectorRun_accepts_terminal :
    (getRun (finishCollectorRun
        { DbState.empty with runs := [mkRun 0 none "v1" .succeeded], nextId := 1 }
        10 0 .failed ⟨2, 0, 0, 0⟩ (some "late")) 0).map Run.status = some .failed := by
  decide

/-- C6 as amended: `finishRun` is an unconditional UPDATE — every run row
matching the id (whatever its current status, terminal included) gets
`status`, `finished_at = now`, `error` and the stats merged into `metrics`,
on every call; rows with other ids are untouched.  Finishing a nonexistent
run is a silent no-op rather than `NotFound`. -/
theorem finishCollectorRun_unconditional (s : DbState) (now runId : Nat)
    (status : CollectFinishStatus) (stats : RunStats) (err : Option String)
    (r : Run) (hr : r ∈ s.runs) (hid : r.run_id = runId) :
    (finishRunRow r now status stats err
      ∈ (finishCollectorRun s now runId status stats err).runs) ∧
    (∀ r2 ∈ s.runs, r2.run_id ≠ runId →
       r2 ∈ (finishCollectorRun s now runId status stats err).runs) := by
  constructor
  · have hmem := List.mem_map_of_mem (fun x : Run =>
      if x.run_id == runId then finishRunRow x now status stats err else x) hr
    simpa [finishCollectorRun, hid] using hmem
  · intro r2 h2 hne
    have hmem := List.mem_map_of_mem (fun x : Run =>
      if x.run_id == runId then finishRunRow x now status stats err else x) h2
    simpa [finishCollectorRun, hne] using hmem

/-- Witness for the amended C6 at a concrete already-succeeded run. -/
theorem finishCollectorRun_unconditional_witness :
    (finishRunRow (mkRun 0 none "v1" .succeeded) 10 .failed ⟨2, 0, 0, 0⟩ (some "late")
      ∈ (finishCollectorRun
          { DbState.empty with runs := [mkRun 0 none "v1" .succeeded], nextId := 1 }
          10 0 .failed ⟨2, 0, 0, 0⟩ (some "late")).runs) ∧
    (∀ r2 ∈ ({ DbState.empty with runs := [mkRun 0 none "v1" .succeeded], nextId := 1 } : DbState).runs,
       r2.run_id ≠ 0 →
       r2 ∈ (finishCollectorRun
          { DbState.empty with runs := [mkRun 0 none "v1" .succeeded], nextId := 1 }
          10 0 .failed ⟨2, 0, 0, 0⟩ (some "late")).runs) :=
  finishCollectorRun_unconditional
    { DbState.empty with runs := [mkRun 0 none "v1" .succeeded], nextId := 1 }
    10 0 .failed ⟨2, 0, 0, 0⟩ (some "late") (mkRun 0 none "v1" .succeeded)
    (by decide) rfl

/-! ## C7 — item payload cardinality -/

/-- Counterexample to C7: an input with exactly one payload present (a blob
reference, no inline text) does not always succeed — when the referenced
blob does not exist, the `items.blob_id` foreign key rejects the INSERT. -/
theorem createItem_dangling_blob_fails :
    createItem DbState.empty 0
      { type := "note", source_type := "manual", source_id := "u",
        blob_id := some "sha256:00" } =
    .error (.fkViolation "items_blob_id_fkey") := by rfl

/-- C7 as amended: item creation fails with the `items_one_payload` check
violation exactly when both payloads or neither payload is present; with
exactly one payload present it succeeds provided the referenced blob (if
the payload is a blob reference) exists — inline text always succeeds. -/
theorem createItem_payload_check (s : DbState) (now : Nat) (input : CreateItemInput) :
    (itemsOnePayload input.blob_id input.text_content = false →
       createItem s now input = .error (.checkViolation "items_one_payload")) ∧
    (itemsOnePayload input.blob_id input.text_content = true →
     blobRefMissing s input.blob_id = false →
       ∃ item s', createItem s now input = .ok (item, s') ∧
         s'.items = s.items ++ [item] ∧ item.blob_id = input.blob_id ∧
         item.text_content = input.text_content) := by
  constructor
  · intro h
    simp [createItem, ulid, createItemRow, h]
  · intro h1 h2
    have h2' : blobRefMissing { s with nextId := s.nextId + 1 } input.blob_id = false := h2
    have key : createItem s now input =
        .ok (createItemRow s.nextId now input,
             { s with
               nextId := s.nextId + 1,
               items := s.items ++ [createItemRow s.nextId now input] }) := by
      simp [createItem, ulid, createItemRow, h1, h2']
    exact ⟨_, _, key, rfl, rfl, rfl⟩

/-- Witness for the amended C7: neither payload fails; inline text alone
succeeds. -/
theorem createItem_payload_check_witness :
    createItem DbState.empty 0 { type := "note", source_type := "manual", source_id := "u" } =
      .error (.checkViolation "items_one_payload") ∧
    (∃ item s', createItem DbState.empty 0
        { type := "note", source_type := "manual", source_id := "u",
          text_content := some "hi" } = .ok (item, s') ∧
      s'.items = DbState.empty.items ++ [item] ∧ item.blob_id = none ∧
      item.text_content = some "hi") := by
  constructor
  · exact (createItem_payload_check DbState.empty 0
      { type := "note", source_type := "manual", source_id := "u" }).1 rfl
  · exact (createItem_payload_check DbState.empty 0
      { type := "note", source_type := "manual", source_id := "u",
        text_content := some "hi" }).2 rfl rfl

/-! ## Lemmas about the lease selection -/

/-- `pickStep` never drops a candidate. -/
theorem pickStep_isSome_of_acc (now : Nat) (b x : Task) :
    (pickStep now (some b) x).isSome = true := by
  unfold pickStep
  by_cases he : taskEligible now x = true
  · simp only [he, if_true]
    split <;> rfl
  · simp [he]

/-- An eligible row makes the step return a candidate. -/
theorem pickStep_isSome_of_elig (now : Nat) (acc : Option Task) (x : Task)
    (he : taskEligible now x = true) : (pickStep now acc x).isSome = true := by
  cases acc with
  | none => simp [pickStep, he]
  | some b => exact pickStep_isSome_of_acc now b x

/-- Folding the step keeps a candidate once one exists. -/
theorem foldl_pickStep_isSome (now : Nat) (l : List Task) :
    ∀ acc : Option Task, acc.isSome = true → (l.foldl (pickStep now) acc).isSome = true := by
  induction l with
  | nil => intro acc h; exact h
  | cons x xs ih =>
    intro acc h
    apply ih
    cases acc with
    | none => simp at h
    | some b => exact pickStep_isSome_of_acc now b x

/-- Folding the step over a list containing an eligible row yields a
candidate. -/
theorem foldl_pickStep_isSome_of_mem (now : Nat) (l : List Task) (t : Task)
    (he : taskEligible now t = true) :
    ∀ acc : Option Task, t ∈ l → (l.foldl (pickStep now) acc).isSome = true := by
  induction l with
  | nil => intro acc h; cases h
  | cons x xs ih =>
    intro acc hmem
    rcases List.mem_cons.mp hmem with rfl | hxs
    · exact foldl_pickStep_isSome now xs _ (pickStep_isSome_of_elig now acc t he)
    · exact ih _ hxs

/-- If some eligible row is in the list, the selection returns one. -/
theorem pickNextTask_isSome (now : Nat) {l : List Task} {t : Task}
    (ht : t ∈ l) (he : taskEligible now t = true) :
    (pickNextTask now l).isSome = true :=
  foldl_pickStep_isSome_of_mem now l t he none ht

/-- A selected row is either the starting candidate or an eligible member of
the list. -/
theorem foldl_pickStep_origin (now : Nat) (l : List Task) :
    ∀ (acc : Option Task) (t : Task), l.foldl (pickStep now) acc = some t →
      acc = some t ∨ (t ∈ l ∧ taskEligible now t = true) := by
  induction l with
  | nil => intro acc t h; exact .inl h
  | cons x xs ih =>
    intro acc t h
    rcases ih (pickStep now acc x) t h with h1 | h2
    · by_cases he : taskEligible now x = true
      · cases acc with
        | none =>
          simp [pickStep, he] at h1
          rcases h1 with rfl
          exact .inr ⟨List.mem_cons_self x xs, he⟩
        | some b =>
          by_cases hc : b.priority < x.priority ∨ (x.priority = b.priority ∧ x.due_at < b.due_at)
          · simp [pickStep, he, hc] at h1
            rcases h1 with rfl
            exact .inr ⟨List.mem_cons_self x xs, he⟩
          · simp [pickStep, he, hc] at h1
            exact .inl (by rw [h1])
      · simp [pickStep, he] at h1
        exact .inl h1
    · exact .inr ⟨List.mem_cons_of_mem x h2.1, h2.2⟩

/-- A selected task is an eligible member of the list. -/
theorem pickNextTask_spec (now : Nat) {l : List Task} {t : Task}
    (h : pickNextTask now l = some t) : t ∈ l ∧ taskEligible now t = true := by
  rcases foldl_pickStep_origin now l none t h with h1 | h2
  · cases h1
  · exact h2

/-- With no eligible row, nothing is selected. -/
theorem pickNextTask_none_of_no_elig (now : Nat) {l : List Task}
    (h : ∀ t ∈ l, taskEligible now t = false) : pickNextTask now l = none := by
  cases hp : pickNextTask now l with
  | none => rfl
  | some t =>
    have hs := pickNextTask_spec now hp
    have := hs.2
    rw [h t hs.1] at this
    cases this

/-- Eligibility forces `status = 'queued'` and `due_at <= now`. -/
theorem taskEligible_status (now : Nat) (t : Task) (h : taskEligible now t = true) :
    t.status = .queued ∧ t.due_at ≤ now := by
  unfold taskEligible at h
  simp only [Bool.and_eq_true] at h
  exact ⟨eq_of_beq h.1.1, Nat.le_of_ble_eq_true h.1.2⟩

/-- Two rows of a primary-key-unique table with the same id are the same
row. -/
theorem pk_unique_task {l : List Task}
    (h : l.Pairwise (fun a b => a.task_id ≠ b.task_id)) {a b : Task}
    (ha : a ∈ l) (hb : b ∈ l) (hid : a.task_id = b.task_id) : a = b := by
  induction l with
  | nil => cases ha
  | cons x xs ih =>
    have hx := (List.pairwise_cons.mp h).1
    have hxs := (List.pairwise_cons.mp h).2
    rcases List.mem_cons.mp ha with rfl | ha2
    · rcases List.mem_cons.mp hb with rfl | hb2
      · rfl
      · exact absurd hid (hx b hb2)
    · rcases List.mem_cons.mp hb with rfl | hb2
      · exact absurd hid.symm (hx a ha2)
      · exact ih hxs ha2 hb2

/-! ## C3 — lease expiry does not requeue a task -/

/-- Counterexample to C3: a task whose lease has expired
(`locked_until = 5 < now = 10`) and whose `due_at = 0 <= now` is *not*
selected by a subsequent `leaseNext` — its status is still `leased` and the
WHERE clause requires `status = 'queued'`. -/
theorem leaseNextTask_skips_expired_leased :
    (leaseNextTask
      { DbState.empty with tasks := [mkTask 0 .leased 0 0 0 3 (some 5)], nextId := 1 }
      10 "w2" 1000).1 = none := by decide

/-- C3 as amended: `leaseNext` selects solely tasks in status `queued` whose
`dueAt <= now` and whose lock is absent or expired, and re-leases the
selection to the worker; a task whose lease expired but whose status is
still `leased` is never selected — only `markFailed` (which resets the task
to `queued` and clears the lock) makes it eligible again. -/
theorem leaseNextTask_eligibility (s : DbState) (now : Nat) (w : String) (ms : Nat) :
    (∀ t', (leaseNextTask s now w ms).1 = some t' →
       ∃ t ∈ s.tasks, taskEligible now t = true ∧ t.status = .queued ∧
         t' = leasedTaskRow t now w ms) ∧
    ((∃ t ∈ s.tasks, taskEligible now t = true) →
       ∃ t', (leaseNextTask s now w ms).1 = some t' ∧ t'.status = .leased ∧
         t'.locked_by = some w ∧ t'.locked_until = some (now + ms)) := by
  constructor
  · intro t' h'
    cases hp : pickNextTask now s.tasks with
    | none => simp [leaseNextTask, hp] at h'
    | some u =>
      have hspec := pickNextTask_spec now hp
      have hq := (taskEligible_status now u hspec.2).1
      simp only [leaseNextTask, hp] at h'
      injection h' with h''
      exact ⟨u, hspec.1, hspec.2, hq, h''.symm⟩
  · rintro ⟨t, ht, he⟩
    obtain ⟨u, hu⟩ := Option.isSome_iff_exists.mp (pickNextTask_isSome now ht he)
    refine ⟨leasedTaskRow u now w ms, ?_, rfl, rfl, rfl⟩
    simp [leaseNextTask, hu]

/-- Witness for the amended C3: one queued due task gets leased to the
calling worker. -/
theorem leaseNextTask_eligibility_witness :
    (∃ t ∈ ({ DbState.empty with
        tasks := [mkTask 0 .queued 0 0 0 3 none], nextId := 1 } : DbState).tasks,
      taskEligible 10 t = true) ∧
    (∃ t', (leaseNextTask
        { DbState.empty with tasks := [mkTask 0 .queued 0 0 0 3 none], nextId := 1 }
        10 "w" 500).1 = some t' ∧ t'.status = .leased ∧ t'.locked_by = some "w" ∧
      t'.locked_until = some (10 + 500)) :=
  ⟨⟨mkTask 0 .queued 0 0 0 3 none, by decide, by decide⟩,
   (leaseNextTask_eligibility
      { DbState.empty with tasks := [mkTask 0 .queued 0 0 0 3 none], nextId := 1 }
      10 "w" 500).2
    ⟨mkTask 0 .queued 0 0 0 3 none, by decide, by decide⟩⟩

/-! ## C4 — lease acquisition is exclusive -/

/-- C4: with exactly one eligible task, two `leaseNext` calls at the same
instant (the single-statement `FOR UPDATE SKIP LOCKED` transaction is
atomic, so concurrent calls linearize) never both return it: the first
caller gets the task leased to itself, the second gets the empty result —
not an error. -/
theorem leaseNextTask_exclusive (s : DbState) (now : Nat) (w1 w2 : String) (ms1 ms2 : Nat)
    (t0 : Task) (h : s.tasks.filter (taskEligible now) = [t0]) :
    (leaseNextTask s now w1 ms1).1 = some (leasedTaskRow t0 now w1 ms1) ∧
    (leaseNextTask (leaseNextTask s now w1 ms1).2 now w2 ms2).1 = none := by
  have ht0f : t0 ∈ s.tasks.filter (taskEligible now) := by
    rw [h]; exact List.mem_singleton_self t0
  have ht0 : t0 ∈ s.tasks := List.mem_of_mem_filter ht0f
  have he0 : taskEligible now t0 = true := List.of_mem_filter ht0f
  have hpick : pickNextTask now s.tasks = some t0 := by
    obtain ⟨u, hu⟩ := Option.isSome_iff_exists.mp (pickNextTask_isSome now ht0 he0)
    have hspec := pickNextTask_spec now hu
    have huf : u ∈ s.tasks.filter (taskEligible now) :=
      List.mem_filter.mpr ⟨hspec.1, hspec.2⟩
    rw [h] at huf
    rw [List.mem_singleton.mp huf] at hu
    exact hu
  have hlease : leaseNextTask s now w1 ms1 =
      (some (leasedTaskRow t0 now w1 ms1),
       { s with tasks := s.tasks.map (fun x =>
          if x.task_id == t0.task_id then leasedTaskRow t0 now w1 ms1 else x) }) := by
    simp [leaseNextTask, hpick]
  refine ⟨by rw [hlease], ?_⟩
  rw [hlease]
  have hnone : pickNextTask now (s.tasks.map (fun x =>
      if x.task_id == t0.task_id then leasedTaskRow t0 now w1 ms1 else x)) = none := by
    apply pickNextTask_none_of_no_elig
    intro x hx
    obtain ⟨y, hy, rfl⟩ := List.mem_map.mp hx
    by_cases hid : (y.task_id == t0.task_id) = true
    · rw [if_pos hid]
      rfl
    · rw [if_neg hid]
      cases hey : taskEligible now y with
      | false => rfl
      | true =>
        exfalso
        have hyf : y ∈ s.tasks.filter (taskEligible now) := List.mem_filter.mpr ⟨hy, hey⟩
        rw [h] at hyf
        have heq := List.mem_singleton.mp hyf
        exact hid (by rw [heq]; exact beq_self_eq_true _)
  simp only [leaseNextTask]
  rw [hnone]

/-- Witness for C4: a queued due task next to a dead one; the first caller
gets it, the second gets none. -/
theorem leaseNextTask_exclusive_witness :
    (({ DbState.empty with
        tasks := [mkTask 0 .queued 0 0 0 3 none, mkTask 1 .dead 5 0 3 3 none],
        nextId := 2 } : DbState).tasks.filter (taskEligible 10) =
      [mkTask 0 .queued 0 0 0 3 none]) ∧
    ((leaseNextTask
        { DbState.empty with
          tasks := [mkTask 0 .queued 0 0 0 3 none, mkTask 1 .dead 5 0 3 3 none],
          nextId := 2 } 10 "w1" 100).1 =
      some (leasedTaskRow (mkTask 0 .queued 0 0 0 3 none) 10 "w1" 100) ∧
     (leaseNextTask (leaseNextTask
        { DbState.empty with
          tasks := [mkTask 0 .queued 0 0 0 3 none, mkTask 1 .dead 5 0 3 3 none],
          nextId := 2 } 10 "w1" 100).2 10 "w2" 200).1 = none) :=
  ⟨by decide,
   leaseNextTask_exclusive
    { DbState.empty with
      tasks := [mkTask 0 .queued 0 0 0 3 none, mkTask 1 .dead 5 0 3 3 none],
      nextId := 2 } 10 "w1" "w2" 100 200 (mkTask 0 .queued 0 0 0 3 none) (by decide)⟩

/-! ## C9 — retry accounting and the dead status -/

/-- The state after enqueueing one task with `maxAttempts = 1` on the empty
store (used by the C9 counterexample). -/
def c9Start : DbState :=
  match enqueueTask DbState.empty 0 { type := "t", payload := [], maxAttempts := some 1 } with
  | .ok p => p.2
  | .error _ => DbState.empty

/-- Counterexample to C9: lease the task and fail it — it is `dead` with
`attempts = 1 = maxAttempts`.  A second `markFailed` pushes `attempts` to
`2 > maxAttempts`, and a `markSucceeded` on the dead task overwrites its
status to `succeeded`: `dead` is not permanent and `attempts` can exceed
`maxAttempts`. -/
theorem markTask_escapes_dead :
    ((getTask (markTaskFailed (leaseNextTask c9Start 0 "w" 100).2 1 0 "boom") 0).map
        Task.status = some .dead) ∧
    ((getTask (markTaskFailed (markTaskFailed (leaseNextTask c9Start 0 "w" 100).2 1 0 "boom")
        2 0 "boom2") 0).map Task.attempts = some 2) ∧
    ((getTask (markTaskSucceeded (markTaskFailed (leaseNextTask c9Start 0 "w" 100).2 1 0 "boom")
        3 0) 0).map Task.status = some .succeeded) := by
  decide

/-- C9 as amended: each `markFailed` increments `attempts` by exactly one,
returns the task to `queued` with the lock fields cleared while the
incremented count is below `maxAttempts`, and sets `dead` once it reaches
it (so further `markFailed` calls keep a dead task dead while still pushing
`attempts` past `maxAttempts`); `leaseNext` never selects a dead task — but
`markSucceeded` / `markRunning` overwrite any status unconditionally, so
`dead` is only permanent under the queue's own lease/fail cycle. -/
theorem markTaskFailed_discipline (s : DbState) (now taskId : Nat) (err : String)
    (t : Task) (ht : t ∈ s.tasks) (hid : t.task_id = taskId)
    (hpk : s.tasks.Pairwise (fun a b => a.task_id ≠ b.task_id)) :
    (failedTaskRow t now err ∈ (markTaskFailed s now taskId err).tasks) ∧
    ((failedTaskRow t now err).attempts = t.attempts + 1) ∧
    (t.attempts + 1 < t.max_attempts →
       (failedTaskRow t now err).status = .queued ∧
       (failedTaskRow t now err).locked_until = none ∧
       (failedTaskRow t now err).locked_by = none) ∧
    (t.max_attempts ≤ t.attempts + 1 → (failedTaskRow t now err).status = .dead) ∧
    (t.status = .dead → ∀ w ms t', (leaseNextTask s now w ms).1 = some t' →
       t'.task_id ≠ t.task_id) := by
  refine ⟨?_, rfl, ?_, ?_, ?_⟩
  · have hmem := List.mem_map_of_mem
      (fun x : Task => if x.task_id == taskId then failedTaskRow x now err else x) ht
    simpa [markTaskFailed, hid] using hmem
  · intro hlt
    have : ¬ t.attempts + 1 ≥ t.max_attempts := by omega
    refine ⟨?_, rfl, rfl⟩
    simp [failedTaskRow, this]
  · intro hge
    simp [failedTaskRow, hge]
  · intro hdead w ms t' h'
    cases hp : pickNextTask now s.tasks with
    | none => simp [leaseNextTask, hp] at h'
    | some u =>
      have hspec := pickNextTask_spec now hp
      have hq := (taskEligible_status now u hspec.2).1
      simp only [leaseNextTask, hp] at h'
      injection h' with h''
      intro heq
      have hut : u.task_id = t.task_id := by
        rw [← heq, ← h'']
        rfl
      have : u = t := pk_unique_task hpk hspec.1 ht hut
      rw [this, hdead] at hq
      cases hq

/-- Witness for the amended C9 at a queued task with two attempts left. -/
theorem markTaskFailed_discipline_witness :
    (failedTaskRow (mkTask 0 .queued 0 0 0 3 none) 7 "err"
       ∈ (markTaskFailed
            { DbState.empty with tasks := [mkTask 0 .queued 0 0 0 3 none], nextId := 1 }
            7 0 "err").tasks) ∧
    ((failedTaskRow (mkTask 0 .queued 0 0 0 3 none) 7 "err").attempts =
       (mkTask 0 .queued 0 0 0 3 none).attempts + 1) ∧
    ((mkTask 0 .queued 0 0 0 3 none).attempts + 1 < (mkTask 0 .queued 0 0 0 3 none).max_attempts →
       (failedTaskRow (mkTask 0 .queued 0 0 0 3 none) 7 "err").status = .queued ∧
       (failedTaskRow (mkTask 0 .queued 0 0 0 3 none) 7 "err").locked_until = none ∧
       (failedTaskRow (mkTask 0 .queued 0 0 0 3 none) 7 "err").locked_by = none) ∧
    ((mkTask 0 .queued 0 0 0 3 none).max_attempts ≤ (mkTask 0 .queued 0 0 0 3 none).attempts + 1 →
       (failedTaskRow (mkTask 0 .queued 0 0 0 3 none) 7 "err").status = .dead) ∧
    ((mkTask 0 .queued 0 0 0 3 none).status = .dead →
       ∀ w ms t', (leaseNextTask
          { DbState.empty with tasks := [mkTask 0 .queued 0 0 0 3 none], nextId := 1 }
          7 w ms).1 = some t' → t'.task_id ≠ (mkTask 0 .queued 0 0 0 3 none).task_id) :=
  markTaskFailed_discipline
    { DbState.empty with tasks := [mkTask 0 .queued 0 0 0 3 none], nextId := 1 }
    7 0 "err" (mkTask 0 .queued 0 0 0 3 none) (by decide) rfl (by decide)

/-! ## C1 — digest-over-uri precedence in dedup resolution -/

/-- C1: in a dedup resolution where both a most-recent digest match `A` and
a most-recent uri match `B` exist, the collector creates the new item and,
when `A` and `B` are different items (a conflict), supersedes the digest
match: the `supersedes` edge runs from `A` to the new item, its metadata
records both candidate ids and `selected = content_sha256`, and the run log
is appended at `warn` level; when there is no conflict (`A` and `B` carry
the same id) the edge still originates from the digest match and the log is
at `info` level.  Hypotheses: the fetch is 2xx, the observing run exists,
and stored ids are below the id supply (which `ulid` guarantees). -/
theorem collectUrl_digest_precedence
    (normFn : String → String) (hashFn : List Nat → String)
    (fetchFn : String → FetchResponse) (s : DbState) (now runId : Nat)
    (url : String) (observedAt : Nat) (A B : Item)
    (hst : 200 ≤ (fetchFn url).status ∧ (fetchFn url).status < 300)
    (hrun : (s.runs.any fun r => r.run_id == runId) = true)
    (hA : hashMatchOf s.items (hashFn (fetchFn url).body) = some A)
    (hB : uriMatchOf s.items (normFn url) = some B)
    (hids : ∀ i ∈ s.items, i.item_id < s.nextId)
    (hout : ∀ p ∈ s.runOutputs, p.2 < s.nextId) :
    (A.item_id ≠ B.item_id →
      (collectUrl normFn hashFn fetchFn s now runId url observedAt).1 =
        .ok { itemId := s.nextId, url := url, canonicalUri := normFn url,
              isNew := false, supersededItemId := some A.item_id } ∧
      (collectUrl normFn hashFn fetchFn s now runId url observedAt).2.edges =
        s.edges ++
          [{ edge_id := s.nextId + 1, from_item_id := A.item_id,
             to_item_id := s.nextId, rel := "supersedes",
             meta := [("reason", MetaVal.s "content_sha256"),
                      ("original_canonical_uri", optStrVal A.canonical_uri),
                      ("new_canonical_uri", MetaVal.s (normFn url)),
                      ("conflict_resolved", MetaVal.b true),
                      ("canonical_uri_match", MetaVal.n B.item_id),
                      ("content_sha256_match", MetaVal.n A.item_id),
                      ("selected", MetaVal.s "content_sha256")],
             created_at := now }] ∧
      (collectUrl normFn hashFn fetchFn s now runId url observedAt).2.runLogs =
        s.runLogs ++
          [{ log_id := s.nextId + 2, run_id := runId, level := .warn,
             message := "Conflict resolved: content_sha256 match takes precedence over canonical_uri match",
             data := [("existing_item_id", MetaVal.n A.item_id),
                      ("new_item_id", MetaVal.n s.nextId),
                      ("conflict_resolved", MetaVal.b true),
                      ("selected_match", MetaVal.s "content_sha256")],
             created_at := now }]) ∧
    (A.item_id = B.item_id →
      (collectUrl normFn hashFn fetchFn s now runId url observedAt).1 =
        .ok { itemId := s.nextId, url := url, canonicalUri := normFn url,
              isNew := false, supersededItemId := some A.item_id } ∧
      (collectUrl normFn hashFn fetchFn s now runId url observedAt).2.edges =
        s.edges ++
          [{ edge_id := s.nextId + 1, from_item_id := A.item_id,
             to_item_id := s.nextId, rel := "supersedes",
             meta := [("reason", MetaVal.s "content_sha256"),
                      ("original_canonical_uri", optStrVal A.canonical_uri),
                      ("new_canonical_uri", MetaVal.s (normFn url))],
             created_at := now }] ∧
      (collectUrl normFn hashFn fetchFn s now runId url observedAt).2.runLogs =
        s.runLogs ++
          [{ log_id := s.nextId + 2, run_id := runId, level := .info,
             message := "Found existing item with same match, linked via supersedes edge",
             data := [("existing_item_id", MetaVal.n A.item_id),
                      ("new_item_id", MetaVal.n s.nextId),
                      ("conflict_resolved", MetaVal.b false),
                      ("selected_match", MetaVal.s "content_sha256")],
             created_at := now }]) := by
  have hcond : ¬((fetchFn url).status < 200 ∨ 300 ≤ (fetchFn url).status) := by omega
  obtain ⟨hAmem, hAsha⟩ := hashMatchOf_mem hA
  have hAne : (A.item_id == s.nextId) = false := by
    have hlt := hids A hAmem
    exact beq_eq_false_iff_ne.mpr (Nat.ne_of_lt hlt)
  have hAex : (s.items.any fun i => i.item_id == A.item_id) = true :=
    List.any_eq_true.mpr ⟨A, hAmem, beq_self_eq_true _⟩
  have houtf : (s.runOutputs.any fun p => p == (runId, s.nextId)) = false := by
    rw [List.any_eq_false]
    intro p hp hbeq
    have hlt := hout p hp
    rw [eq_of_beq hbeq] at hlt
    exact Nat.lt_irrefl _ hlt
  constructor
  · intro hcase
    refine ⟨?_, ?_, ?_⟩ <;>
      simp [collectUrl, createItem, createItemRow, ulid, addRunOutput, createEdge,
        appendRunLog, runExists, itemExists, blobRefMissing, itemsOnePayload,
        optStrVal, optIdVal, putBlob_items, putBlob_runs, putBlob_edges,
        putBlob_runOutputs, putBlob_runInputs, putBlob_runLogs, putBlob_tasks,
        putBlob_nextId, putBlob_blob_found, List.any_append, hcond, hrun, hA, hB,
        hAne, houtf, hAex, hcase]
  · intro hcase
    have hBmem := (uriMatchOf_mem hB).1
    have hBne : B.item_id ≠ s.nextId := Nat.ne_of_lt (hids B hBmem)
    have hBex : (s.items.any fun i => i.item_id == B.item_id) = true :=
      List.any_eq_true.mpr ⟨B, hBmem, beq_self_eq_true _⟩
    refine ⟨?_, ?_, ?_⟩ <;>
      simp [collectUrl, createItem, createItemRow, ulid, addRunOutput, createEdge,
        appendRunLog, runExists, itemExists, blobRefMissing, itemsOnePayload,
        optStrVal, optIdVal, putBlob_items, putBlob_runs, putBlob_edges,
        putBlob_runOutputs, putBlob_runInputs, putBlob_runLogs, putBlob_tasks,
        putBlob_nextId, putBlob_blob_found, List.any_append, hcond, hrun, hA, hB,
        hAne, houtf, hAex, hBne, hBex, hcase]

/-- Item fixture for C1: the most-recent digest match (digest `sha256:h1`,
uri `https://a`). -/
def c1ItemA : Item :=
  { item_id := 0, type := "intel.webpage", title := none, source_type := "collector",
    source_id := "http_snapshot", external_ref := some "https://orig/a",
    canonical_uri := some "https://a", content_sha256 := some "sha256:h1",
    observed_at := some 5, tags := [], sensitivity := "private", blob_id := none,
    text_content := some "pa", meta := [], created_at := 5, updated_at := 5 }

/-- Item fixture for C1: the most-recent uri match (digest `sha256:h2`,
uri `https://u`). -/
def c1ItemB : Item :=
  { item_id := 1, type := "intel.webpage", title := none, source_type := "collector",
    source_id := "http_snapshot", external_ref := some "https://orig/b",
    canonical_uri := some "https://u", content_sha256 := some "sha256:h2",
    observed_at := some 6, tags := [], sensitivity := "private", blob_id := none,
    text_content := some "pb", meta := [], created_at := 6, updated_at := 6 }

/-- State fixture for C1: both candidate items and the observing run. -/
def c1State : DbState :=
  { blobs := [], items := [c1ItemA, c1ItemB], edges := [],
    runs := [mkRun 2 none "v1" .running], runInputs := [], runOutputs := [],
    runLogs := [], tasks := [], nextId := 3 }

/-- Witness for C1: a new observation hash-matching item 0 and uri-matching
item 1 supersedes item 0 (digest wins), records both candidates and
`selected = content_sha256` in the edge metadata, and logs at `warn`. -/
theorem collectUrl_digest_precedence_witness :
    (collectUrl (fun _ => "https://u") (fun _ => "sha256:h1")
        (fun _ => { status := 200, headers := [], body := [] }) c1State 9 2 "http://x" 9).1 =
      .ok { itemId := 3, url := "http://x", canonicalUri := "https://u",
            isNew := false, supersededItemId := some 0 } ∧
    (collectUrl (fun _ => "https://u") (fun _ => "sha256:h1")
        (fun _ => { status := 200, headers := [], body := [] }) c1State 9 2 "http://x" 9).2.edges =
      c1State.edges ++
        [{ edge_id := 4, from_item_id := 0, to_item_id := 3, rel := "supersedes",
           meta := [("reason", MetaVal.s "content_sha256"),
                    ("original_canonical_uri", MetaVal.s "https://a"),
                    ("new_canonical_uri", MetaVal.s "https://u"),
                    ("conflict_resolved", MetaVal.b true),
                    ("canonical_uri_match", MetaVal.n 1),
                    ("content_sha256_match", MetaVal.n 0),
                    ("selected", MetaVal.s "content_sha256")],
           created_at := 9 }] ∧
    (collectUrl (fun _ => "https://u") (fun _ => "sha256:h1")
        (fun _ => { status := 200, headers := [], body := [] }) c1State 9 2 "http://x" 9).2.runLogs =
      c1State.runLogs ++
        [{ log_id := 5, run_id := 2, level := .warn,
           message := "Conflict resolved: content_sha256 match takes precedence over canonical_uri match",
           data := [("existing_item_id", MetaVal.n 0), ("new_item_id", MetaVal.n 3),
                    ("conflict_resolved", MetaVal.b true),
                    ("selected_match", MetaVal.s "content_sha256")],
           created_at := 9 }] :=
  (collectUrl_digest_precedence (fun _ => "https://u") (fun _ => "sha256:h1")
    (fun _ => { status := 200, headers := [], body := [] }) c1State 9 2 "http://x" 9
    c1ItemA c1ItemB (by decide) (by decide) (by decide) (by decide) (by decide)
    (by decide)).1 (by decide)

/-! ## C2 — dedup ignores the normalization version (code bug)

The repository's own `spec/normalization-contract.md` (§3.2, §6.3) requires
that items be compared for dedup only under the same
`normalization_version`, but the items table carries no such column, the
match queries filter only on `canonical_uri` / `content_sha256`, and
`collectUrl` never consults the observing run's version. -/

/-- State fixture for C2: item 0 was produced by run 1 under normalization
version `v1` (see `runOutputs`); run 2 runs under version `v2`. -/
def c2State : DbState :=
  { blobs := [], items := [c1ItemA], edges := [],
    runs := [mkRun 1 none "v1" .succeeded, mkRun 2 none "v2" .running],
    runInputs := [], runOutputs := [(1, 0)], runLogs := [], tasks := [], nextId := 3 }

/-- C2 fails on the code: an observation made by run 2 (normalization
version `v2`) whose content hash equals that of item 0 — an item produced
by run 1 under version `v1` — still selects item 0 as the superseded
predecessor; cross-version comparison is not suppressed. -/
theorem collectUrl_crosses_normalization_versions :
    ((collectUrl (fun _ => "https://y") (fun _ => "sha256:h1")
        (fun _ => { status := 200, headers := [], body := [] }) c2State 8 2 "u" 8).1.map
      (fun r => r.supersededItemId) = .ok (some 0)) ∧
    (getRun c2State 1).map Run.normalization_version = some "v1" ∧
    (getRun c2State 2).map Run.normalization_version = some "v2" ∧
    (1, 0) ∈ c2State.runOutputs := by decide

/-! ## C8 — a per-URL failure aborts the remaining URLs (code bug)

The repository's own component spec (`Runner Contract`) requires partial
success — "some URLs succeed, some fail" — and a log row for *every* URL
attempt, but `collectHttpSnapshot` rethrows after logging a per-URL
failure, so the remaining sibling URLs are never processed. -/

/-- State fixture for C8: just the observing run. -/
def c8State : DbState :=
  { blobs := [], items := [], edges := [], runs := [mkRun 0 none "v1" .running],
    runInputs := [], runOutputs := [], runLogs := [], tasks := [], nextId := 1 }

/-- C8 fails on the code: with `urls = ["a", "b"]` where fetching `"a"`
returns HTTP 404 and `"b"` would succeed, the collector logs the failure
and rethrows — the run ends with the HTTP error, no item is created (in
particular none for `"b"`), and the only logs are the start log and the
error log; yet `"b"` alone would have produced a new item. -/
theorem collectHttpSnapshot_aborts_siblings :
    ((collectHttpSnapshot (fun u => u) (fun _ => "sha256:bb")
        (fun u => if u == "a" then { status := 404, headers := [], body := [] }
                  else { status := 200, headers := [], body := [104, 105] })
        c8State 0 0 ["a", "b"]).1 = .error (.httpStatus 404 "a")) ∧
    ((collectHttpSnapshot (fun u => u) (fun _ => "sha256:bb")
        (fun u => if u == "a" then { status := 404, headers := [], body := [] }
                  else { status := 200, headers := [], body := [104, 105] })
        c8State 0 0 ["a", "b"]).2.items = []) ∧
    ((collectHttpSnapshot (fun u => u) (fun _ => "sha256:bb")
        (fun u => if u == "a" then { status := 404, headers := [], body := [] }
                  else { status := 200, headers := [], body := [104, 105] })
        c8State 0 0 ["a", "b"]).2.runLogs.map RunLog.level = [.info, .error]) ∧
    ((collectUrl (fun u => u) (fun _ => "sha256:bb")
        (fun u => if u == "a" then { status := 404, headers := [], body := [] }
                  else { status := 200, headers := [], body := [104, 105] })
        c8State 0 0 "b" 0).1.map (fun r => r.isNew) = .ok true) := by decide

end Wetblob
